import Mathlib

/-!
Verification of the device-communication core of the RuG_2DOF Dynamixel web
application (`dynamixel_controller.py` and `app.py`), as a shallow embedding.

The serial bus and the `dynamixel_sdk` packet handler are external
collaborators; they are modelled as oracles (`Bus`, `ConnectEnv`, `ScanEnv`)
that supply, for each request, the reply the SDK would have returned
(`value, dxl_comm_result, dxl_error` triples for reads, result/error pairs for
writes, and whether a constructor or `close()` call raises).  Every function
below mirrors the corresponding Python function statement by statement.
-/

namespace RuG2DOF

/-! ## Packet codec (dynamixel_controller.py `_read1/_read2/_read4`, `_writeN`)

The Python read helpers receive the unsigned wire value from the SDK and
recover the sign; the write helpers mask the Python integer to the field
width (`value & 0xFF` / `& 0xFFFF` / `& 0xFFFFFFFF`).  On Python integers
`value & (2^w - 1)` is the nonnegative residue of `value` modulo `2^w`, also
for negative `value`, which is what the masks below compute. -/

/-- Python `_read1` returns the raw byte unchanged (no sign handling). -/
def read1decode (value : Nat) : Int := (value : Int)

/-- Lines 96-99: `if value & 0x8000: value -= 0x10000` — two's-complement
recovery for signed 16-bit fields. -/
def read2decode (value : Nat) : Int :=
  if value &&& 0x8000 ≠ 0 then (value : Int) - 0x10000 else (value : Int)

/-- Lines 116-119: `if value & 0x80000000: value -= 0x100000000` —
two's-complement recovery for signed 32-bit fields. -/
def read4decode (value : Nat) : Int :=
  if value &&& 0x80000000 ≠ 0 then (value : Int) - 0x100000000 else (value : Int)

/-- Python `_write1` line 126: `value & 0xFF`. -/
def write1mask (value : Int) : Nat := (value % 0x100).toNat

/-- Python `_write2` line 142: `value & 0xFFFF`. -/
def write2mask (value : Int) : Nat := (value % 0x10000).toNat

/-- Python `_write4` line 158: `value & 0xFFFFFFFF`. -/
def write4mask (value : Int) : Nat := (value % 0x100000000).toNat

/-! ### Codec lemmas -/

theorem testBit_of_lt_two_pow_succ {n k : Nat} (h : n < 2 ^ (k + 1)) :
    n.testBit k = decide (2 ^ k ≤ n) := by
  rw [Nat.testBit_to_div_mod]
  have hpos : 0 < 2 ^ k := Nat.pos_pow_of_pos _ (by norm_num)
  have hdivlt : n / 2 ^ k < 2 := by
    rw [Nat.div_lt_iff_lt_mul hpos]
    calc n < 2 ^ (k + 1) := h
    _ = 2 * 2 ^ k := by ring
  rcases le_or_lt (2 ^ k) n with hle | hlt
  · have h1 : 1 ≤ n / 2 ^ k := (Nat.one_le_div_iff hpos).mpr hle
    have : n / 2 ^ k = 1 := Nat.le_antisymm (Nat.lt_succ_iff.mp hdivlt) h1
    simp [this, hle]
  · have : n / 2 ^ k = 0 := Nat.div_eq_of_lt hlt
    simp [this, Nat.not_le.mpr hlt]

theorem land_top_bit_ne_zero_iff {n k : Nat} (h : n < 2 ^ (k + 1)) :
    (n &&& 2 ^ k ≠ 0) ↔ 2 ^ k ≤ n := by
  rw [Nat.and_two_pow, testBit_of_lt_two_pow_succ h]
  have hpos : 0 < 2 ^ k := Nat.pos_pow_of_pos _ (by norm_num)
  rcases le_or_lt (2 ^ k) n with hle | hlt
  · simp [hle]
  · simp [Nat.not_le.mpr hlt]

/-- Generic form of the sign-recovery branch: subtract `2^(k+1)` when the top
bit (bit `k`) of a `(k+1)`-bit word is set. -/
def decodeTop (k : Nat) (value : Nat) : Int :=
  if value &&& 2 ^ k ≠ 0 then (value : Int) - 2 ^ (k + 1) else (value : Int)

theorem read2decode_eq_decodeTop (value : Nat) :
    read2decode value = decodeTop 15 value := by
  simp only [read2decode, decodeTop]
  norm_num

theorem read4decode_eq_decodeTop (value : Nat) :
    read4decode value = decodeTop 31 value := by
  simp only [read4decode, decodeTop]
  norm_num

/-- The mask `v mod 2^(k+1)` of a signed value in `[-2^k, 2^k)` decodes back
to the value itself. -/
theorem decodeTop_mask (k : Nat) (v : Int) (hlo : -(2 ^ k) ≤ v) (hhi : v < 2 ^ k) :
    decodeTop k ((v % (2 ^ (k + 1) : Int)).toNat) = v := by
  have hkk : ((2 : Int) ^ k) ≤ 2 ^ (k + 1) := by
    have h2 : ((2 : Int) ^ (k + 1)) = 2 * 2 ^ k := by ring
    have hp : (0 : Int) < 2 ^ k := by positivity
    linarith [h2]
  have hp : (0 : Int) < 2 ^ k := by positivity
  have hpow : ((2 : Int) ^ (k + 1)) = 2 * 2 ^ k := by ring
  rcases le_or_lt 0 v with hv | hv
  · -- nonnegative value: mask is the identity, top bit clear
    have hvlt : v < 2 ^ (k + 1) := by linarith
    have hmod : v % (2 ^ (k + 1) : Int) = v := Int.emod_eq_of_lt hv hvlt
    rw [hmod]
    have htn : ((v.toNat : Int)) = v := Int.toNat_of_nonneg hv
    have htlt : v.toNat < 2 ^ (k + 1) := by
      have hcast : ((2 ^ (k + 1) : Nat) : Int) = (2 : Int) ^ (k + 1) := by push_cast; ring
      have : (v.toNat : Int) < ((2 ^ (k + 1) : Nat) : Int) := by rw [htn, hcast]; exact hvlt
      exact_mod_cast this
    have htop : ¬ (v.toNat &&& 2 ^ k ≠ 0) := by
      rw [land_top_bit_ne_zero_iff htlt]
      intro hcontra
      have : ((2 : Int) ^ k) ≤ v := by
        calc ((2 : Int) ^ k) = ((2 ^ k : Nat) : Int) := by push_cast; ring
        _ ≤ (v.toNat : Int) := by exact_mod_cast hcontra
        _ = v := htn
      linarith
    unfold decodeTop
    rw [if_neg htop, htn]
  · -- negative value: mask shifts by the modulus, top bit set
    have hmod : v % (2 ^ (k + 1) : Int) = v + 2 ^ (k + 1) := by
      have h1 : (v + 2 ^ (k + 1) * 1) % (2 ^ (k + 1) : Int) = v % (2 ^ (k + 1) : Int) :=
        Int.add_mul_emod_self_left v (2 ^ (k + 1)) 1
      have h2 : v + 2 ^ (k + 1) * 1 = v + 2 ^ (k + 1) := by ring
      rw [h2] at h1
      rw [← h1, Int.emod_eq_of_lt]
      · linarith
      · linarith
    rw [hmod]
    have hnn : (0 : Int) ≤ v + 2 ^ (k + 1) := by linarith
    have htn : (((v + 2 ^ (k + 1)).toNat : Int)) = v + 2 ^ (k + 1) :=
      Int.toNat_of_nonneg hnn
    have htlt : (v + 2 ^ (k + 1)).toNat < 2 ^ (k + 1) := by
      have hlt : v + 2 ^ (k + 1) < 2 ^ (k + 1) := by linarith
      have hcast : ((2 ^ (k + 1) : Nat) : Int) = (2 : Int) ^ (k + 1) := by push_cast; ring
      have : ((v + 2 ^ (k + 1)).toNat : Int) < ((2 ^ (k + 1) : Nat) : Int) := by
        rw [htn, hcast]; exact hlt
      exact_mod_cast this
    have htop : (v + 2 ^ (k + 1)).toNat &&& 2 ^ k ≠ 0 := by
      rw [land_top_bit_ne_zero_iff htlt]
      have hge : (2 : Int) ^ k ≤ v + 2 ^ (k + 1) := by linarith
      have : ((2 ^ k : Nat) : Int) ≤ ((v + 2 ^ (k + 1)).toNat : Int) := by
        rw [htn]; push_cast; linarith
      exact_mod_cast this
    unfold decodeTop
    rw [if_pos htop, htn]
    ring

/-- A word of the top half of the range decodes to a negative value. -/
theorem decodeTop_neg (k : Nat) (u : Nat) (hlt : u < 2 ^ (k + 1)) (hge : 2 ^ k ≤ u) :
    decodeTop k u < 0 := by
  have htop : u &&& 2 ^ k ≠ 0 := (land_top_bit_ne_zero_iff hlt).mpr hge
  unfold decodeTop
  rw [if_pos htop]
  have hcast : ((2 ^ (k + 1) : Nat) : Int) = (2 : Int) ^ (k + 1) := by push_cast; ring
  have : ((u : Int)) < 2 ^ (k + 1) := by
    have : ((u : Int)) < ((2 ^ (k + 1) : Nat) : Int) := by exact_mod_cast hlt
    rw [hcast] at this; exact this
  linarith

/-! ## Bus model

`dynamixel_sdk`'s `PacketHandler.readNByteTxRx` returns a triple
`(value, dxl_comm_result, dxl_error)` and `writeNByteTxRx` returns
`(dxl_comm_result, dxl_error)`.  A `Bus` records, per request, the reply the
SDK would deliver.  `COMM_SUCCESS = 0` in the SDK. -/

def COMM_SUCCESS : Int := 0

/-- Reply of `readNByteTxRx`: unsigned wire value, comm result, status byte. -/
structure RxResult where
  value : Nat
  commResult : Int
  rxError : Nat
deriving DecidableEq, Repr

/-- Reply of `writeNByteTxRx`: comm result and status byte. -/
structure TxResult where
  commResult : Int
  rxError : Nat
deriving DecidableEq, Repr

/-- The serial bus / SDK oracle.  `readReply dxl_id addr width` and
`writeReply dxl_id addr width sentValue` give the SDK's replies. -/
structure Bus where
  readReply : Nat → Nat → Nat → RxResult
  writeReply : Nat → Nat → Nat → Nat → TxResult

/-- Python `DynamixelError` (dynamixel_controller.py line 36), carrying `str(exc)`. -/
structure DynamixelError where
  msg : String
deriving DecidableEq, Repr

/-- SDK `getTxRxResult` — external formatter, modelled as an abstract string
of the comm result code. -/
def getTxRxResult (commResult : Int) : String := s!"comm result {commResult}"

/-- SDK `getRxPacketError` — external formatter, modelled as an abstract
string of the status byte. -/
def getRxPacketError (rxError : Nat) : String := s!"packet error {rxError}"

/-! Control-table addresses (dynamixel_controller.py lines 8-25). -/

def ADDR_OPERATING_MODE : Nat := 11
def ADDR_TORQUE_ENABLE : Nat := 64
def ADDR_VELOCITY_I_GAIN : Nat := 76
def ADDR_VELOCITY_P_GAIN : Nat := 78
def ADDR_POSITION_D_GAIN : Nat := 80
def ADDR_POSITION_I_GAIN : Nat := 82
def ADDR_POSITION_P_GAIN : Nat := 84
def ADDR_PROFILE_ACCEL : Nat := 108
def ADDR_PROFILE_VELOCITY : Nat := 112
def ADDR_GOAL_PWM : Nat := 100
def ADDR_GOAL_CURRENT : Nat := 102
def ADDR_GOAL_VELOCITY : Nat := 104
def ADDR_GOAL_POSITION : Nat := 116
def ADDR_PRESENT_PWM : Nat := 124
def ADDR_PRESENT_CURRENT : Nat := 126
def ADDR_PRESENT_VELOCITY : Nat := 128
def ADDR_PRESENT_POSITION : Nat := 132
def ADDR_MOVING : Nat := 122

/-- Python `_read1` (lines 64-79): raise on comm failure, then on device error,
else return the raw byte. -/
def read1 (bus : Bus) (dxl_id addr : Nat) : Except DynamixelError Int :=
  let r := bus.readReply dxl_id addr 1
  if r.commResult ≠ COMM_SUCCESS then
    .error ⟨s!"Failed to read (ID {dxl_id}, addr {addr}): {getTxRxResult r.commResult}"⟩
  else if r.rxError ≠ 0 then
    .error ⟨s!"Failed to read (ID {dxl_id}, addr {addr}): {getRxPacketError r.rxError}"⟩
  else .ok (read1decode r.value)

/-- Python `_read2` (lines 81-99): as `_read1`, then signed 16-bit recovery. -/
def read2 (bus : Bus) (dxl_id addr : Nat) : Except DynamixelError Int :=
  let r := bus.readReply dxl_id addr 2
  if r.commResult ≠ COMM_SUCCESS then
    .error ⟨s!"Failed to read (ID {dxl_id}, addr {addr}): {getTxRxResult r.commResult}"⟩
  else if r.rxError ≠ 0 then
    .error ⟨s!"Failed to read (ID {dxl_id}, addr {addr}): {getRxPacketError r.rxError}"⟩
  else .ok (read2decode r.value)

/-- Python `_read4` (lines 101-119): as `_read1`, then signed 32-bit recovery. -/
def read4 (bus : Bus) (dxl_id addr : Nat) : Except DynamixelError Int :=
  let r := bus.readReply dxl_id addr 4
  if r.commResult ≠ COMM_SUCCESS then
    .error ⟨s!"Failed to read (ID {dxl_id}, addr {addr}): {getTxRxResult r.commResult}"⟩
  else if r.rxError ≠ 0 then
    .error ⟨s!"Failed to read (ID {dxl_id}, addr {addr}): {getRxPacketError r.rxError}"⟩
  else .ok (read4decode r.value)

/-- Python `OPERATING_MODE_NAMES` (lines 26-33). -/
def OPERATING_MODE_NAMES (mode : Int) : Option String :=
  if mode = 0 then some "Current Control Mode"
  else if mode = 1 then some "Velocity Control Mode"
  else if mode = 3 then some "Position Control Mode"
  else if mode = 4 then some "Extended Position Control Mode"
  else if mode = 5 then some "Current-based Position Mode"
  else if mode = 16 then some "PWM Control Mode"
  else none

/-- Python `OPERATING_MODE_NAMES.get(mode, f"Mode {mode}")` (line 262). -/
def mode_name (mode : Int) : String :=
  (OPERATING_MODE_NAMES mode).getD s!"Mode {mode}"

/-- The telemetry dictionary built by `read_state` (lines 251-265).  Each
field is `some` exactly when the corresponding key was inserted. -/
structure DeviceState where
  operating_mode : Option Int
  torque_enabled : Option Bool
  present_pwm : Option Int
  present_current : Option Int
  present_velocity : Option Int
  present_position : Option Int
  moving : Option Bool
  operating_mode_name : Option String
  error : Option String
deriving DecidableEq, Repr

/-- Python `read_state` (lines 251-265): reads the seven telemetry fields in order
inside one `try`; a `DynamixelError` at any point stops the sequence and adds
`"error"` to the dictionary built so far. -/
def read_state (bus : Bus) (dxl_id : Nat) : DeviceState :=
  match read1 bus dxl_id ADDR_OPERATING_MODE with
  | .error e => ⟨none, none, none, none, none, none, none, none, some e.msg⟩
  | .ok om =>
  match read1 bus dxl_id ADDR_TORQUE_ENABLE with
  | .error e => ⟨some om, none, none, none, none, none, none, none, some e.msg⟩
  | .ok te =>
  match read2 bus dxl_id ADDR_PRESENT_PWM with
  | .error e => ⟨some om, some (decide (te ≠ 0)), none, none, none, none, none, none, some e.msg⟩
  | .ok pwm =>
  match read2 bus dxl_id ADDR_PRESENT_CURRENT with
  | .error e => ⟨some om, some (decide (te ≠ 0)), some pwm, none, none, none, none, none, some e.msg⟩
  | .ok cur =>
  match read4 bus dxl_id ADDR_PRESENT_VELOCITY with
  | .error e => ⟨some om, some (decide (te ≠ 0)), some pwm, some cur, none, none, none, none, some e.msg⟩
  | .ok vel =>
  match read4 bus dxl_id ADDR_PRESENT_POSITION with
  | .error e => ⟨some om, some (decide (te ≠ 0)), some pwm, some cur, some vel, none, none, none, some e.msg⟩
  | .ok pos =>
  match read1 bus dxl_id ADDR_MOVING with
  | .error e => ⟨some om, some (decide (te ≠ 0)), some pwm, some cur, some vel, some pos, none, none, some e.msg⟩
  | .ok mov =>
    ⟨some om, some (decide (te ≠ 0)), some pwm, some cur, some vel, some pos,
     some (decide (mov ≠ 0)), some (mode_name om), none⟩

/-- Python `read_all` (lines 267-271): one `read_state` per configured id, in
configuration order. -/
def read_all (bus : Bus) (ids : List Nat) : List (Nat × DeviceState) :=
  ids.map (fun dxl_id => (dxl_id, read_state bus dxl_id))

/-- Python `read_all_states` (lines 273-274) is an alias of `read_all`. -/
def read_all_states (bus : Bus) (ids : List Nat) : List (Nat × DeviceState) :=
  read_all bus ids

/-- A reply the Python read helpers accept without raising. -/
def replyOk (r : RxResult) : Prop := r.commResult = COMM_SUCCESS ∧ r.rxError = 0

instance (r : RxResult) : Decidable (replyOk r) := by
  unfold replyOk; infer_instance

/-- All seven telemetry reads of a device succeed. -/
def okDev (bus : Bus) (dxl_id : Nat) : Prop :=
  replyOk (bus.readReply dxl_id ADDR_OPERATING_MODE 1) ∧
  replyOk (bus.readReply dxl_id ADDR_TORQUE_ENABLE 1) ∧
  replyOk (bus.readReply dxl_id ADDR_PRESENT_PWM 2) ∧
  replyOk (bus.readReply dxl_id ADDR_PRESENT_CURRENT 2) ∧
  replyOk (bus.readReply dxl_id ADDR_PRESENT_VELOCITY 4) ∧
  replyOk (bus.readReply dxl_id ADDR_PRESENT_POSITION 4) ∧
  replyOk (bus.readReply dxl_id ADDR_MOVING 1)

instance (bus : Bus) (dxl_id : Nat) : Decidable (okDev bus dxl_id) := by
  unfold okDev; infer_instance

theorem read1_ok (bus : Bus) (dxl_id addr : Nat)
    (h : replyOk (bus.readReply dxl_id addr 1)) :
    read1 bus dxl_id addr = .ok (read1decode (bus.readReply dxl_id addr 1).value) := by
  obtain ⟨h1, h2⟩ := h
  simp [read1, h1, h2]

theorem read2_ok (bus : Bus) (dxl_id addr : Nat)
    (h : replyOk (bus.readReply dxl_id addr 2)) :
    read2 bus dxl_id addr = .ok (read2decode (bus.readReply dxl_id addr 2).value) := by
  obtain ⟨h1, h2⟩ := h
  simp [read2, h1, h2]

theorem read4_ok (bus : Bus) (dxl_id addr : Nat)
    (h : replyOk (bus.readReply dxl_id addr 4)) :
    read4 bus dxl_id addr = .ok (read4decode (bus.readReply dxl_id addr 4).value) := by
  obtain ⟨h1, h2⟩ := h
  simp [read4, h1, h2]

theorem read1_err (bus : Bus) (dxl_id addr : Nat)
    (h : ¬ replyOk (bus.readReply dxl_id addr 1)) :
    ∃ e, read1 bus dxl_id addr = .error e := by
  unfold replyOk at h
  push_neg at h
  unfold read1
  by_cases hc : (bus.readReply dxl_id addr 1).commResult = COMM_SUCCESS
  · have he : (bus.readReply dxl_id addr 1).rxError ≠ 0 := h hc
    simp [hc, he]
  · simp [hc]

theorem read2_err (bus : Bus) (dxl_id addr : Nat)
    (h : ¬ replyOk (bus.readReply dxl_id addr 2)) :
    ∃ e, read2 bus dxl_id addr = .error e := by
  unfold replyOk at h
  push_neg at h
  unfold read2
  by_cases hc : (bus.readReply dxl_id addr 2).commResult = COMM_SUCCESS
  · have he : (bus.readReply dxl_id addr 2).rxError ≠ 0 := h hc
    simp [hc, he]
  · simp [hc]

theorem read4_err (bus : Bus) (dxl_id addr : Nat)
    (h : ¬ replyOk (bus.readReply dxl_id addr 4)) :
    ∃ e, read4 bus dxl_id addr = .error e := by
  unfold replyOk at h
  push_neg at h
  unfold read4
  by_cases hc : (bus.readReply dxl_id addr 4).commResult = COMM_SUCCESS
  · have he : (bus.readReply dxl_id addr 4).rxError ≠ 0 := h hc
    simp [hc, he]
  · simp [hc]

/-- Value a successful `_read1` exchange returns. -/
def dec1 (bus : Bus) (dxl_id addr : Nat) : Int :=
  read1decode (bus.readReply dxl_id addr 1).value

/-- Value a successful `_read2` exchange returns. -/
def dec2 (bus : Bus) (dxl_id addr : Nat) : Int :=
  read2decode (bus.readReply dxl_id addr 2).value

/-- Value a successful `_read4` exchange returns. -/
def dec4 (bus : Bus) (dxl_id addr : Nat) : Int :=
  read4decode (bus.readReply dxl_id addr 4).value

/-- When all seven reads succeed, `read_state` returns the full snapshot. -/
theorem read_state_of_okDev (bus : Bus) (dxl_id : Nat) (h : okDev bus dxl_id) :
    read_state bus dxl_id =
      ⟨some (dec1 bus dxl_id ADDR_OPERATING_MODE),
       some (decide (dec1 bus dxl_id ADDR_TORQUE_ENABLE ≠ 0)),
       some (dec2 bus dxl_id ADDR_PRESENT_PWM),
       some (dec2 bus dxl_id ADDR_PRESENT_CURRENT),
       some (dec4 bus dxl_id ADDR_PRESENT_VELOCITY),
       some (dec4 bus dxl_id ADDR_PRESENT_POSITION),
       some (decide (dec1 bus dxl_id ADDR_MOVING ≠ 0)),
       some (mode_name (dec1 bus dxl_id ADDR_OPERATING_MODE)),
       none⟩ := by
  obtain ⟨h1, h2, h3, h4, h5, h6, h7⟩ := h
  simp [read_state, read1_ok _ _ _ h1, read1_ok _ _ _ h2, read2_ok _ _ _ h3,
    read2_ok _ _ _ h4, read4_ok _ _ _ h5, read4_ok _ _ _ h6, read1_ok _ _ _ h7,
    dec1, dec2, dec4]

/-- When some read fails, the state carries the error key. -/
theorem read_state_error_of_not_okDev (bus : Bus) (dxl_id : Nat)
    (h : ¬ okDev bus dxl_id) :
    (read_state bus dxl_id).error.isSome = true := by
  by_cases h1 : replyOk (bus.readReply dxl_id ADDR_OPERATING_MODE 1)
  case neg =>
    obtain ⟨e, he⟩ := read1_err bus dxl_id ADDR_OPERATING_MODE h1
    simp [read_state, he]
  by_cases h2 : replyOk (bus.readReply dxl_id ADDR_TORQUE_ENABLE 1)
  case neg =>
    obtain ⟨e, he⟩ := read1_err bus dxl_id ADDR_TORQUE_ENABLE h2
    simp [read_state, read1_ok _ _ _ h1, he]
  by_cases h3 : replyOk (bus.readReply dxl_id ADDR_PRESENT_PWM 2)
  case neg =>
    obtain ⟨e, he⟩ := read2_err bus dxl_id ADDR_PRESENT_PWM h3
    simp [read_state, read1_ok _ _ _ h1, read1_ok _ _ _ h2, he]
  by_cases h4 : replyOk (bus.readReply dxl_id ADDR_PRESENT_CURRENT 2)
  case neg =>
    obtain ⟨e, he⟩ := read2_err bus dxl_id ADDR_PRESENT_CURRENT h4
    simp [read_state, read1_ok _ _ _ h1, read1_ok _ _ _ h2, read2_ok _ _ _ h3, he]
  by_cases h5 : replyOk (bus.readReply dxl_id ADDR_PRESENT_VELOCITY 4)
  case neg =>
    obtain ⟨e, he⟩ := read4_err bus dxl_id ADDR_PRESENT_VELOCITY h5
    simp [read_state, read1_ok _ _ _ h1, read1_ok _ _ _ h2, read2_ok _ _ _ h3,
      read2_ok _ _ _ h4, he]
  by_cases h6 : replyOk (bus.readReply dxl_id ADDR_PRESENT_POSITION 4)
  case neg =>
    obtain ⟨e, he⟩ := read4_err bus dxl_id ADDR_PRESENT_POSITION h6
    simp [read_state, read1_ok _ _ _ h1, read1_ok _ _ _ h2, read2_ok _ _ _ h3,
      read2_ok _ _ _ h4, read4_ok _ _ _ h5, he]
  by_cases h7 : replyOk (bus.readReply dxl_id ADDR_MOVING 1)
  case neg =>
    obtain ⟨e, he⟩ := read1_err bus dxl_id ADDR_MOVING h7
    simp [read_state, read1_ok _ _ _ h1, read1_ok _ _ _ h2, read2_ok _ _ _ h3,
      read2_ok _ _ _ h4, read4_ok _ _ _ h5, read4_ok _ _ _ h6, he]
  exact absurd ⟨h1, h2, h3, h4, h5, h6, h7⟩ h

/-- A bus on which the operating-mode read of any device succeeds with value 3
but the torque-enable read reports device error 4. -/
def c1bus : Bus :=
  ⟨fun _ addr _ => if addr = ADDR_TORQUE_ENABLE then ⟨0, 0, 4⟩ else ⟨3, 0, 0⟩,
   fun _ _ _ _ => ⟨0, 0⟩⟩

/-- C1 counterexample: when the second telemetry read fails with a device
error, `read_state` returns a state that carries the error message AND the
`operating_mode` field read before the failure — not a state containing only
the error message. -/
theorem read_state_not_error_only :
    (read_state c1bus 1).error.isSome = true ∧
    (read_state c1bus 1).operating_mode = some 3 := by
  constructor <;> rfl

/-- C1 (amended): on any individual telemetry field read failure, `read_state`
short-circuits — no later field is read — and returns the fields successfully
read before the failure together with the error message; the state is
error-only exactly when the first read fails.  (The original claim's
"containing only the error message" holds only for a first-read failure.) -/
theorem read_state_short_circuit (bus : Bus) (dxl_id : Nat) :
    (¬ replyOk (bus.readReply dxl_id ADDR_OPERATING_MODE 1) →
       (read_state bus dxl_id).error.isSome = true ∧
       read_state bus dxl_id =
         ⟨none, none, none, none, none, none, none, none,
          (read_state bus dxl_id).error⟩) ∧
    (replyOk (bus.readReply dxl_id ADDR_OPERATING_MODE 1) →
     ¬ replyOk (bus.readReply dxl_id ADDR_TORQUE_ENABLE 1) →
       (read_state bus dxl_id).error.isSome = true ∧
       read_state bus dxl_id =
         ⟨some (dec1 bus dxl_id ADDR_OPERATING_MODE),
          none, none, none, none, none, none, none,
          (read_state bus dxl_id).error⟩) ∧
    (replyOk (bus.readReply dxl_id ADDR_OPERATING_MODE 1) →
     replyOk (bus.readReply dxl_id ADDR_TORQUE_ENABLE 1) →
     ¬ replyOk (bus.readReply dxl_id ADDR_PRESENT_PWM 2) →
       (read_state bus dxl_id).error.isSome = true ∧
       read_state bus dxl_id =
         ⟨some (dec1 bus dxl_id ADDR_OPERATING_MODE),
          some (decide (dec1 bus dxl_id ADDR_TORQUE_ENABLE ≠ 0)),
          none, none, none, none, none, none,
          (read_state bus dxl_id).error⟩) ∧
    (replyOk (bus.readReply dxl_id ADDR_OPERATING_MODE 1) →
     replyOk (bus.readReply dxl_id ADDR_TORQUE_ENABLE 1) →
     replyOk (bus.readReply dxl_id ADDR_PRESENT_PWM 2) →
     ¬ replyOk (bus.readReply dxl_id ADDR_PRESENT_CURRENT 2) →
       (read_state bus dxl_id).error.isSome = true ∧
       read_state bus dxl_id =
         ⟨some (dec1 bus dxl_id ADDR_OPERATING_MODE),
          some (decide (dec1 bus dxl_id ADDR_TORQUE_ENABLE ≠ 0)),
          some (dec2 bus dxl_id ADDR_PRESENT_PWM),
          none, none, none, none, none,
          (read_state bus dxl_id).error⟩) ∧
    (replyOk (bus.readReply dxl_id ADDR_OPERATING_MODE 1) →
     replyOk (bus.readReply dxl_id ADDR_TORQUE_ENABLE 1) →
     replyOk (bus.readReply dxl_id ADDR_PRESENT_PWM 2) →
     replyOk (bus.readReply dxl_id ADDR_PRESENT_CURRENT 2) →
     ¬ replyOk (bus.readReply dxl_id ADDR_PRESENT_VELOCITY 4) →
       (read_state bus dxl_id).error.isSome = true ∧
       read_state bus dxl_id =
         ⟨some (dec1 bus dxl_id ADDR_OPERATING_MODE),
          some (decide (dec1 bus dxl_id ADDR_TORQUE_ENABLE ≠ 0)),
          some (dec2 bus dxl_id ADDR_PRESENT_PWM),
          some (dec2 bus dxl_id ADDR_PRESENT_CURRENT),
          none, none, none, none,
          (read_state bus dxl_id).error⟩) ∧
    (replyOk (bus.readReply dxl_id ADDR_OPERATING_MODE 1) →
     replyOk (bus.readReply dxl_id ADDR_TORQUE_ENABLE 1) →
     replyOk (bus.readReply dxl_id ADDR_PRESENT_PWM 2) →
     replyOk (bus.readReply dxl_id ADDR_PRESENT_CURRENT 2) →
     replyOk (bus.readReply dxl_id ADDR_PRESENT_VELOCITY 4) →
     ¬ replyOk (bus.readReply dxl_id ADDR_PRESENT_POSITION 4) →
       (read_state bus dxl_id).error.isSome = true ∧
       read_state bus dxl_id =
         ⟨some (dec1 bus dxl_id ADDR_OPERATING_MODE),
          some (decide (dec1 bus dxl_id ADDR_TORQUE_ENABLE ≠ 0)),
          some (dec2 bus dxl_id ADDR_PRESENT_PWM),
          some (dec2 bus dxl_id ADDR_PRESENT_CURRENT),
          some (dec4 bus dxl_id ADDR_PRESENT_VELOCITY),
          none, none, none,
          (read_state bus dxl_id).error⟩) ∧
    (replyOk (bus.readReply dxl_id ADDR_OPERATING_MODE 1) →
     replyOk (bus.readReply dxl_id ADDR_TORQUE_ENABLE 1) →
     replyOk (bus.readReply dxl_id ADDR_PRESENT_PWM 2) →
     replyOk (bus.readReply dxl_id ADDR_PRESENT_CURRENT 2) →
     replyOk (bus.readReply dxl_id ADDR_PRESENT_VELOCITY 4) →
     replyOk (bus.readReply dxl_id ADDR_PRESENT_POSITION 4) →
     ¬ replyOk (bus.readReply dxl_id ADDR_MOVING 1) →
       (read_state bus dxl_id).error.isSome = true ∧
       read_state bus dxl_id =
         ⟨some (dec1 bus dxl_id ADDR_OPERATING_MODE),
          some (decide (dec1 bus dxl_id ADDR_TORQUE_ENABLE ≠ 0)),
          some (dec2 bus dxl_id ADDR_PRESENT_PWM),
          some (dec2 bus dxl_id ADDR_PRESENT_CURRENT),
          some (dec4 bus dxl_id ADDR_PRESENT_VELOCITY),
          some (dec4 bus dxl_id ADDR_PRESENT_POSITION),
          none, none,
          (read_state bus dxl_id).error⟩) ∧
    (okDev bus dxl_id → (read_state bus dxl_id).error = none) := by
  refine ⟨?_, ?_, ?_, ?_, ?_, ?_, ?_, ?_⟩
  · intro h1
    obtain ⟨e, he⟩ := read1_err bus dxl_id ADDR_OPERATING_MODE h1
    simp [read_state, he]
  · intro h1 h2
    obtain ⟨e, he⟩ := read1_err bus dxl_id ADDR_TORQUE_ENABLE h2
    simp [read_state, read1_ok _ _ _ h1, he, dec1]
  · intro h1 h2 h3
    obtain ⟨e, he⟩ := read2_err bus dxl_id ADDR_PRESENT_PWM h3
    simp [read_state, read1_ok _ _ _ h1, read1_ok _ _ _ h2, he, dec1]
  · intro h1 h2 h3 h4
    obtain ⟨e, he⟩ := read2_err bus dxl_id ADDR_PRESENT_CURRENT h4
    simp [read_state, read1_ok _ _ _ h1, read1_ok _ _ _ h2, read2_ok _ _ _ h3, he,
      dec1, dec2]
  · intro h1 h2 h3 h4 h5
    obtain ⟨e, he⟩ := read4_err bus dxl_id ADDR_PRESENT_VELOCITY h5
    simp [read_state, read1_ok _ _ _ h1, read1_ok _ _ _ h2, read2_ok _ _ _ h3,
      read2_ok _ _ _ h4, he, dec1, dec2]
  · intro h1 h2 h3 h4 h5 h6
    obtain ⟨e, he⟩ := read4_err bus dxl_id ADDR_PRESENT_POSITION h6
    simp [read_state, read1_ok _ _ _ h1, read1_ok _ _ _ h2, read2_ok _ _ _ h3,
      read2_ok _ _ _ h4, read4_ok _ _ _ h5, he, dec1, dec2, dec4]
  · intro h1 h2 h3 h4 h5 h6 h7
    obtain ⟨e, he⟩ := read1_err bus dxl_id ADDR_MOVING h7
    simp [read_state, read1_ok _ _ _ h1, read1_ok _ _ _ h2, read2_ok _ _ _ h3,
      read2_ok _ _ _ h4, read4_ok _ _ _ h5, read4_ok _ _ _ h6, he, dec1, dec2, dec4]
  · intro h
    rw [read_state_of_okDev bus dxl_id h]

/-- Witness for `read_state_short_circuit`: on `c1bus` the torque-enable read
fails after a successful operating-mode read. -/
theorem read_state_short_circuit_witness :
    (read_state c1bus 1).error.isSome = true ∧
    read_state c1bus 1 =
      ⟨some (dec1 c1bus 1 ADDR_OPERATING_MODE),
       none, none, none, none, none, none, none,
       (read_state c1bus 1).error⟩ :=
  (read_state_short_circuit c1bus 1).2.1 (by decide) (by decide)

/-- C2: a single read cycle over two configured devices, one healthy and one
faulty, yields one entry per device in configuration order; the healthy
device's entry is a complete `DeviceState` without error, the faulty one's
carries the error key; neither the cycle nor the healthy entry is affected by
the fault. -/
theorem read_all_fault_isolation (bus : Bus) (healthy faulty : Nat)
    (hok : okDev bus healthy) (hbad : ¬ okDev bus faulty) :
    read_all bus [healthy, faulty] =
      [(healthy, read_state bus healthy), (faulty, read_state bus faulty)] ∧
    (read_state bus healthy).error = none ∧
    (read_state bus healthy).operating_mode.isSome = true ∧
    (read_state bus healthy).torque_enabled.isSome = true ∧
    (read_state bus healthy).present_pwm.isSome = true ∧
    (read_state bus healthy).present_current.isSome = true ∧
    (read_state bus healthy).present_velocity.isSome = true ∧
    (read_state bus healthy).present_position.isSome = true ∧
    (read_state bus healthy).moving.isSome = true ∧
    (read_state bus healthy).operating_mode_name.isSome = true ∧
    (read_state bus faulty).error.isSome = true := by
  refine ⟨rfl, ?_⟩
  rw [read_state_of_okDev bus healthy hok]
  refine ⟨rfl, rfl, rfl, rfl, rfl, rfl, rfl, rfl, rfl, ?_⟩
  exact read_state_error_of_not_okDev bus faulty hbad

/-- A bus where device 1 answers every read with value 5 and device 2 fails
its first read with a transport error. -/
def c2bus : Bus :=
  ⟨fun dxl_id _ _ => if dxl_id = 1 then ⟨5, 0, 0⟩ else ⟨0, -3001, 0⟩,
   fun _ _ _ _ => ⟨0, 0⟩⟩

/-- Witness for `read_all_fault_isolation` on `c2bus` with devices 1 and 2. -/
theorem read_all_fault_isolation_witness :
    read_all c2bus [1, 2] =
      [(1, read_state c2bus 1), (2, read_state c2bus 2)] ∧
    (read_state c2bus 1).error = none ∧
    (read_state c2bus 1).operating_mode.isSome = true ∧
    (read_state c2bus 1).torque_enabled.isSome = true ∧
    (read_state c2bus 1).present_pwm.isSome = true ∧
    (read_state c2bus 1).present_current.isSome = true ∧
    (read_state c2bus 1).present_velocity.isSome = true ∧
    (read_state c2bus 1).present_position.isSome = true ∧
    (read_state c2bus 1).moving.isSome = true ∧
    (read_state c2bus 1).operating_mode_name.isSome = true ∧
    (read_state c2bus 2).error.isSome = true :=
  read_all_fault_isolation c2bus 1 2 (by decide) (by decide)

/-! ## Write path

Write helpers return the Python outcome (unit or raised `DynamixelError`)
together with the list of wire writes they issued, so that ordering claims
can be stated. -/

/-- One write exchange issued on the wire: device id, address, byte width,
and the masked value sent. -/
structure WriteEvent where
  dxl_id : Nat
  addr : Nat
  width : Nat
  sent : Nat
deriving DecidableEq, Repr

/-- A write reply the Python write helpers accept without raising. -/
def txOk (r : TxResult) : Prop := r.commResult = COMM_SUCCESS ∧ r.rxError = 0

instance (r : TxResult) : Decidable (txOk r) := by
  unfold txOk; infer_instance

/-- Python `_write1` (lines 123-137). -/
def write1 (bus : Bus) (dxl_id addr : Nat) (value : Int) :
    Except DynamixelError Unit × List WriteEvent :=
  let sent := write1mask value
  let r := bus.writeReply dxl_id addr 1 sent
  if r.commResult ≠ COMM_SUCCESS then
    (.error ⟨s!"Failed to write (ID {dxl_id}, addr {addr}): {getTxRxResult r.commResult}"⟩,
     [⟨dxl_id, addr, 1, sent⟩])
  else if r.rxError ≠ 0 then
    (.error ⟨s!"Failed to write (ID {dxl_id}, addr {addr}): {getRxPacketError r.rxError}"⟩,
     [⟨dxl_id, addr, 1, sent⟩])
  else (.ok (), [⟨dxl_id, addr, 1, sent⟩])

/-- Python `_write2` (lines 139-153). -/
def write2 (bus : Bus) (dxl_id addr : Nat) (value : Int) :
    Except DynamixelError Unit × List WriteEvent :=
  let sent := write2mask value
  let r := bus.writeReply dxl_id addr 2 sent
  if r.commResult ≠ COMM_SUCCESS then
    (.error ⟨s!"Failed to write (ID {dxl_id}, addr {addr}): {getTxRxResult r.commResult}"⟩,
     [⟨dxl_id, addr, 2, sent⟩])
  else if r.rxError ≠ 0 then
    (.error ⟨s!"Failed to write (ID {dxl_id}, addr {addr}): {getRxPacketError r.rxError}"⟩,
     [⟨dxl_id, addr, 2, sent⟩])
  else (.ok (), [⟨dxl_id, addr, 2, sent⟩])

/-- Python `_write4` (lines 155-169). -/
def write4 (bus : Bus) (dxl_id addr : Nat) (value : Int) :
    Except DynamixelError Unit × List WriteEvent :=
  let sent := write4mask value
  let r := bus.writeReply dxl_id addr 4 sent
  if r.commResult ≠ COMM_SUCCESS then
    (.error ⟨s!"Failed to write (ID {dxl_id}, addr {addr}): {getTxRxResult r.commResult}"⟩,
     [⟨dxl_id, addr, 4, sent⟩])
  else if r.rxError ≠ 0 then
    (.error ⟨s!"Failed to write (ID {dxl_id}, addr {addr}): {getRxPacketError r.rxError}"⟩,
     [⟨dxl_id, addr, 4, sent⟩])
  else (.ok (), [⟨dxl_id, addr, 4, sent⟩])

theorem write1_ok (bus : Bus) (dxl_id addr : Nat) (value : Int)
    (h : txOk (bus.writeReply dxl_id addr 1 (write1mask value))) :
    write1 bus dxl_id addr value = (.ok (), [⟨dxl_id, addr, 1, write1mask value⟩]) := by
  obtain ⟨h1, h2⟩ := h
  simp [write1, h1, h2]

theorem write2_ok (bus : Bus) (dxl_id addr : Nat) (value : Int)
    (h : txOk (bus.writeReply dxl_id addr 2 (write2mask value))) :
    write2 bus dxl_id addr value = (.ok (), [⟨dxl_id, addr, 2, write2mask value⟩]) := by
  obtain ⟨h1, h2⟩ := h
  simp [write2, h1, h2]

theorem write4_ok (bus : Bus) (dxl_id addr : Nat) (value : Int)
    (h : txOk (bus.writeReply dxl_id addr 4 (write4mask value))) :
    write4 bus dxl_id addr value = (.ok (), [⟨dxl_id, addr, 4, write4mask value⟩]) := by
  obtain ⟨h1, h2⟩ := h
  simp [write4, h1, h2]

/-- Whatever the reply, `_write1` issues exactly one wire write. -/
theorem write1_events (bus : Bus) (dxl_id addr : Nat) (value : Int) :
    (write1 bus dxl_id addr value).2 = [⟨dxl_id, addr, 1, write1mask value⟩] := by
  by_cases hc : (bus.writeReply dxl_id addr 1 (write1mask value)).commResult = COMM_SUCCESS <;>
    by_cases he : (bus.writeReply dxl_id addr 1 (write1mask value)).rxError = 0 <;>
      simp [write1, hc, he]

/-- Python `;`-sequencing of two statements that can raise: the second runs
only when the first did not raise; traces concatenate. -/
def seqW (a b : Except DynamixelError Unit × List WriteEvent) :
    Except DynamixelError Unit × List WriteEvent :=
  match a.1 with
  | .error e => (.error e, a.2)
  | .ok _ => (b.1, a.2 ++ b.2)

/-- Python `set_torque` (lines 191-192). -/
def set_torque (bus : Bus) (dxl_id : Nat) (enable : Bool) :
    Except DynamixelError Unit × List WriteEvent :=
  write1 bus dxl_id ADDR_TORQUE_ENABLE (if enable then 1 else 0)

/-- Python `set_operating_mode` (lines 194-205): if `auto_torque`, first
`set_torque(id, False)` inside `try/except DynamixelError: pass`, then the
mode write, then `set_torque(id, True)`. -/
def set_operating_mode (bus : Bus) (dxl_id : Nat) (mode : Int) (auto_torque : Bool) :
    Except DynamixelError Unit × List WriteEvent :=
  let pre : List WriteEvent :=
    if auto_torque then (set_torque bus dxl_id false).2 else []
  let w := write1 bus dxl_id ADDR_OPERATING_MODE mode
  match w.1 with
  | .error e => (.error e, pre ++ w.2)
  | .ok _ =>
    if auto_torque then
      let t := set_torque bus dxl_id true
      (t.1, pre ++ w.2 ++ t.2)
    else (.ok (), pre ++ w.2)

/-- Python `if x is not None: write` — a skipped optional write. -/
def maybe_write (o : Option Int)
    (f : Int → Except DynamixelError Unit × List WriteEvent) :
    Except DynamixelError Unit × List WriteEvent :=
  match o with
  | none => (.ok (), [])
  | some v => f v

/-- Python `set_pid` (lines 207-225): optional gain writes in source order
positionP, positionI, positionD, velocityP, velocityI. -/
def set_pid (bus : Bus) (dxl_id : Nat)
    (position_p position_i position_d velocity_p velocity_i : Option Int) :
    Except DynamixelError Unit × List WriteEvent :=
  seqW (maybe_write position_p (write2 bus dxl_id ADDR_POSITION_P_GAIN))
    (seqW (maybe_write position_i (write2 bus dxl_id ADDR_POSITION_I_GAIN))
      (seqW (maybe_write position_d (write2 bus dxl_id ADDR_POSITION_D_GAIN))
        (seqW (maybe_write velocity_p (write2 bus dxl_id ADDR_VELOCITY_P_GAIN))
          (maybe_write velocity_i (write2 bus dxl_id ADDR_VELOCITY_I_GAIN)))))

/-- Python `set_goals` (lines 227-248): optional writes in source order
profileAccel, profileVelocity, pwm, current, velocity, position. -/
def set_goals (bus : Bus) (dxl_id : Nat)
    (goal_position goal_velocity goal_current goal_pwm
     profile_velocity profile_accel : Option Int) :
    Except DynamixelError Unit × List WriteEvent :=
  seqW (maybe_write profile_accel (write4 bus dxl_id ADDR_PROFILE_ACCEL))
    (seqW (maybe_write profile_velocity (write4 bus dxl_id ADDR_PROFILE_VELOCITY))
      (seqW (maybe_write goal_pwm (write2 bus dxl_id ADDR_GOAL_PWM))
        (seqW (maybe_write goal_current (write2 bus dxl_id ADDR_GOAL_CURRENT))
          (seqW (maybe_write goal_velocity (write4 bus dxl_id ADDR_GOAL_VELOCITY))
            (maybe_write goal_position (write4 bus dxl_id ADDR_GOAL_POSITION))))))

/-- C7: `setOperatingMode(id, mode, autoTorque=true)` issues exactly
torque-disable, mode write, torque-enable, in that order, and completes
successfully whatever the reply to the torque-disable write (e.g. a device
fault because torque was already disabled). -/
theorem set_operating_mode_sequence (bus : Bus) (dxl_id : Nat) (mode : Int)
    (hmode : txOk (bus.writeReply dxl_id ADDR_OPERATING_MODE 1 (write1mask mode)))
    (henable : txOk (bus.writeReply dxl_id ADDR_TORQUE_ENABLE 1 1)) :
    (set_operating_mode bus dxl_id mode true).1 = .ok () ∧
    (set_operating_mode bus dxl_id mode true).2 =
      [⟨dxl_id, ADDR_TORQUE_ENABLE, 1, 0⟩,
       ⟨dxl_id, ADDR_OPERATING_MODE, 1, write1mask mode⟩,
       ⟨dxl_id, ADDR_TORQUE_ENABLE, 1, 1⟩] := by
  have hd : (set_torque bus dxl_id false).2 = [⟨dxl_id, ADDR_TORQUE_ENABLE, 1, 0⟩] := by
    unfold set_torque
    rw [write1_events]
    norm_num [write1mask]
  have he : set_torque bus dxl_id true =
      (.ok (), [⟨dxl_id, ADDR_TORQUE_ENABLE, 1, 1⟩]) := by
    unfold set_torque
    have h1 : write1mask 1 = 1 := by norm_num [write1mask]
    rw [if_pos rfl]
    rw [write1_ok bus dxl_id ADDR_TORQUE_ENABLE 1 (by rw [h1]; exact henable), h1]
  constructor <;>
    simp [set_operating_mode, write1_ok bus dxl_id ADDR_OPERATING_MODE mode hmode,
      hd, he]

/-- A bus on which the torque-disable write reports device fault 4 ("already
disabled") while every other write succeeds. -/
def c7bus : Bus :=
  ⟨fun _ _ _ => ⟨0, 0, 0⟩,
   fun _ addr _ sent =>
     if addr = ADDR_TORQUE_ENABLE ∧ sent = 0 then ⟨0, 4⟩ else ⟨0, 0⟩⟩

/-- Witness for `set_operating_mode_sequence` on `c7bus`, where the
torque-disable write faults. -/
theorem set_operating_mode_sequence_witness :
    (set_operating_mode c7bus 1 3 true).1 = .ok () ∧
    (set_operating_mode c7bus 1 3 true).2 =
      [⟨1, ADDR_TORQUE_ENABLE, 1, 0⟩,
       ⟨1, ADDR_OPERATING_MODE, 1, write1mask 3⟩,
       ⟨1, ADDR_TORQUE_ENABLE, 1, 1⟩] :=
  set_operating_mode_sequence c7bus 1 3 (by decide) (by decide)

/-- The wire writes `setGoals` must issue: the present fields, one write
each, in the fixed source order; an absent field contributes nothing. -/
def goal_write_order (dxl_id : Nat)
    (goal_position goal_velocity goal_current goal_pwm
     profile_velocity profile_accel : Option Int) : List WriteEvent :=
  (profile_accel.map fun v => WriteEvent.mk dxl_id ADDR_PROFILE_ACCEL 4 (write4mask v)).toList ++
  (profile_velocity.map fun v => WriteEvent.mk dxl_id ADDR_PROFILE_VELOCITY 4 (write4mask v)).toList ++
  (goal_pwm.map fun v => WriteEvent.mk dxl_id ADDR_GOAL_PWM 2 (write2mask v)).toList ++
  (goal_current.map fun v => WriteEvent.mk dxl_id ADDR_GOAL_CURRENT 2 (write2mask v)).toList ++
  (goal_velocity.map fun v => WriteEvent.mk dxl_id ADDR_GOAL_VELOCITY 4 (write4mask v)).toList ++
  (goal_position.map fun v => WriteEvent.mk dxl_id ADDR_GOAL_POSITION 4 (write4mask v)).toList

/-- C8: for every subset of present optional fields, `setGoals` succeeds and
writes exactly the present fields, in the fixed order profileAccel,
profileVelocity, pwm, current, velocity, position; absent fields produce no
bus write at all. -/
theorem set_goals_writes (bus : Bus) (dxl_id : Nat)
    (goal_position goal_velocity goal_current goal_pwm
     profile_velocity profile_accel : Option Int)
    (hall : ∀ addr w sent, txOk (bus.writeReply dxl_id addr w sent)) :
    (set_goals bus dxl_id goal_position goal_velocity goal_current goal_pwm
        profile_velocity profile_accel).1 = .ok () ∧
    (set_goals bus dxl_id goal_position goal_velocity goal_current goal_pwm
        profile_velocity profile_accel).2 =
      goal_write_order dxl_id goal_position goal_velocity goal_current goal_pwm
        profile_velocity profile_accel := by
  have hw2 : ∀ addr v, write2 bus dxl_id addr v =
      (.ok (), [⟨dxl_id, addr, 2, write2mask v⟩]) :=
    fun addr v => write2_ok bus dxl_id addr v (hall addr 2 (write2mask v))
  have hw4 : ∀ addr v, write4 bus dxl_id addr v =
      (.ok (), [⟨dxl_id, addr, 4, write4mask v⟩]) :=
    fun addr v => write4_ok bus dxl_id addr v (hall addr 4 (write4mask v))
  cases goal_position <;> cases goal_velocity <;> cases goal_current <;>
    cases goal_pwm <;> cases profile_velocity <;> cases profile_accel <;>
    simp [set_goals, goal_write_order, seqW, maybe_write, hw2, hw4]

/-- A bus accepting every write. -/
def allOkBus : Bus := ⟨fun _ _ _ => ⟨0, 0, 0⟩, fun _ _ _ _ => ⟨0, 0⟩⟩

/-- Witness for `set_goals_writes`: position and pwm present, the rest
absent. -/
theorem set_goals_writes_witness :
    (set_goals allOkBus 1 (some 1000) none none (some (-2)) none none).1 = .ok () ∧
    (set_goals allOkBus 1 (some 1000) none none (some (-2)) none none).2 =
      goal_write_order 1 (some 1000) none none (some (-2)) none none :=
  set_goals_writes allOkBus 1 (some 1000) none none (some (-2)) none none
    (fun _ _ _ => ⟨rfl, rfl⟩)

/-! ## Connection manager (app.py) -/

/-- Attributes the `DynamixelController` constructor stores
(dynamixel_controller.py lines 41-44): `self.ids = list(ids)` — the new
session manages exactly the requested ids. -/
structure Controller where
  port_name : String
  baudrate : Int
  ids : List Nat
deriving DecidableEq, Repr

/-- Python `connection_info` (app.py lines 22-26). -/
structure ConnInfo where
  port : Option String
  baudrate : Option Int
  ids : List Nat
deriving DecidableEq, Repr

/-- The module-level connection state of app.py (lines 20-27): `dxl`,
`connection_info`, `dxl_error_message`. -/
structure AppState where
  dxl : Option Controller
  connection_info : ConnInfo
  dxl_error_message : Option String
deriving DecidableEq, Repr

/-- Oracle for `connect_controller`: whether `DynamixelController(...)`
raises (with its message), and whether `close()` on the old controller
raises — the latter is swallowed by `try/except Exception: pass`. -/
structure ConnectEnv where
  openFail : String → Int → List Nat → Option String
  closeRaises : Controller → Bool

/-- Python `connect_controller` (app.py lines 79-105): under the lock, close and drop
any previous controller (close failures swallowed), then construct the new
controller; on success install it, update `connection_info`, clear the error
and return `(True, "Connected successfully.")`; on failure leave `dxl = None`,
record the message and return the failure.  The result also carries the list
of controllers that were closed and discarded. -/
def connect_controller (env : ConnectEnv) (st : AppState)
    (port : String) (baudrate : Int) (ids : List Nat) :
    (Bool × String) × AppState × List Controller :=
  let closed : List Controller := match st.dxl with | some c => [c] | none => []
  match env.openFail port baudrate ids with
  | none =>
    ((true, "Connected successfully."),
     ⟨some ⟨port, baudrate, ids⟩, ⟨some port, some baudrate, ids⟩, none⟩, closed)
  | some e =>
    ((false, s!"Failed to connect: {e}"),
     ⟨none, st.connection_info, some e⟩, closed)

/-- C4: connecting while a session is active always replaces it: the previous
controller is closed and discarded first; on constructor success exactly the
new session (with exactly the requested ids) is active and the last error is
cleared; on failure no session is active and the failure message is recorded;
the outcome never depends on the close behaviour or identity of the previous
session, so being connected is never itself an error. -/
theorem connect_replaces (env : ConnectEnv) (st : AppState)
    (port : String) (baudrate : Int) (ids : List Nat) (prev : Controller)
    (hactive : st.dxl = some prev) :
    (connect_controller env st port baudrate ids).2.2 = [prev] ∧
    (env.openFail port baudrate ids = none →
       connect_controller env st port baudrate ids =
         ((true, "Connected successfully."),
          ⟨some ⟨port, baudrate, ids⟩, ⟨some port, some baudrate, ids⟩, none⟩,
          [prev])) ∧
    (∀ e, env.openFail port baudrate ids = some e →
       (connect_controller env st port baudrate ids).1.1 = false ∧
       (connect_controller env st port baudrate ids).1.2 = s!"Failed to connect: {e}" ∧
       (connect_controller env st port baudrate ids).2.1.dxl = none ∧
       (connect_controller env st port baudrate ids).2.1.dxl_error_message = some e) ∧
    (∀ env' st', env'.openFail = env.openFail → st'.dxl = some prev →
       st'.connection_info = st.connection_info →
       connect_controller env' st' port baudrate ids =
         connect_controller env st port baudrate ids) := by
  refine ⟨?_, ?_, ?_, ?_⟩
  · cases hopen : env.openFail port baudrate ids <;>
      simp [connect_controller, hactive, hopen]
  · intro hopen
    simp [connect_controller, hactive, hopen]
  · intro e hopen
    simp [connect_controller, hactive, hopen]
  · intro env' st' h1 h2 h3
    cases hopen : env.openFail port baudrate ids <;>
      simp [connect_controller, hactive, h1, h2, h3, hopen]

/-- A state already connected to session A on COM1, and an environment whose
constructor succeeds but whose `close()` raises. -/
def c4prev : Controller := ⟨"COM1", 57600, [1, 2]⟩

def c4env : ConnectEnv := ⟨fun _ _ _ => none, fun _ => true⟩

def c4state : AppState := ⟨some c4prev, ⟨some "COM1", some 57600, [1, 2]⟩, none⟩

/-- Witness for `connect_replaces`: reconnecting on COM5 with ids `[3]`
replaces session A by exactly session B. -/
theorem connect_replaces_witness :
    (connect_controller c4env c4state "COM5" 1000000 [3]).2.2 = [c4prev] ∧
    (c4env.openFail "COM5" 1000000 [3] = none →
       connect_controller c4env c4state "COM5" 1000000 [3] =
         ((true, "Connected successfully."),
          ⟨some ⟨"COM5", 1000000, [3]⟩, ⟨some "COM5", some 1000000, [3]⟩, none⟩,
          [c4prev])) ∧
    (∀ e, c4env.openFail "COM5" 1000000 [3] = some e →
       (connect_controller c4env c4state "COM5" 1000000 [3]).1.1 = false ∧
       (connect_controller c4env c4state "COM5" 1000000 [3]).1.2 =
         s!"Failed to connect: {e}" ∧
       (connect_controller c4env c4state "COM5" 1000000 [3]).2.1.dxl = none ∧
       (connect_controller c4env c4state "COM5" 1000000 [3]).2.1.dxl_error_message =
         some e) ∧
    (∀ env' st', env'.openFail = c4env.openFail → st'.dxl = some c4prev →
       st'.connection_info = c4state.connection_info →
       connect_controller env' st' "COM5" 1000000 [3] =
         connect_controller c4env c4state "COM5" 1000000 [3]) :=
  connect_replaces c4env c4state "COM5" 1000000 [3] c4prev rfl

/-! ## `close()` (dynamixel_controller.py lines 276-284) -/

/-- Close-relevant runtime state of a controller: whether `self.port_handler`
is not `None`, and how many `closePort()` invocations the handler has
received. -/
structure CloseState where
  port_handler_present : Bool
  closePortCalls : Nat
deriving DecidableEq, Repr

/-- State after `__init__` (lines 41-52): `self.port_handler` is assigned and
no method of the class ever assigns it again. -/
def initCloseState : CloseState := ⟨true, 0⟩

/-- Python `close` (lines 276-284): under the lock, `if self.port_handler is not
None:` invoke `closePort()` inside `try/except Exception: pass` — so `close`
itself never raises — but `self.port_handler` is never set to `None`. -/
def close (st : CloseState) : CloseState :=
  if st.port_handler_present then
    ⟨st.port_handler_present, st.closePortCalls + 1⟩
  else st

/-- C5 (code bug): because `port_handler` is never cleared, the
`is not None` guard is always true after construction, and every `close()`
call invokes `closePort()` again — two consecutive `close()` calls release
the transport handle twice, not exactly once. -/
theorem close_double_release :
    (close initCloseState).closePortCalls = 1 ∧
    (close (close initCloseState)).closePortCalls = 2 ∧
    (close (close initCloseState)).port_handler_present = true :=
  ⟨rfl, rfl, rfl⟩

/-! ## `handle_set_pid` (app.py lines 327-350) -/

/-- Names bound in the body of `class DynamixelController`
(dynamixel_controller.py lines 39-284). -/
def controller_methods : List String :=
  ["__init__", "_read1", "_read2", "_read4", "_write1", "_write2", "_write4",
   "get_model_number", "set_torque", "set_operating_mode", "set_pid",
   "set_goals", "read_state", "read_all", "read_all_states", "close"]

/-- Python attribute resolution on a `DynamixelController` instance: raises
`AttributeError` when the class defines no such name. -/
def getattr_check (name : String) : Except String Unit :=
  if name ∈ controller_methods then .ok ()
  else .error s!"AttributeError: DynamixelController object has no attribute {name}"

/-- What a socket handler invocation ends with. -/
inductive HandlerOutcome
  | backendError (msg : String)
  | successLog (msg : String)
  | errorLog (msg : String)
  | uncaughtException (msg : String)
deriving DecidableEq, Repr

/-- The invocation emitted one of the two documented outcomes. -/
def HandlerOutcome.isLogged : HandlerOutcome → Bool
  | .successLog _ => true
  | .errorLog _ => true
  | _ => false

/-- Python `handle_set_pid` (app.py lines 327-350): with no controller, emit a
backend error; otherwise call `controller.set_position_pid_gains(...)` then
`controller.set_velocity_pi_gains(...)` inside `try/except DynamixelError`.
Attribute lookup happens first; an `AttributeError` is not a
`DynamixelError`, so it escapes the handler.  (The success branch below is
unreachable for the actual class, whose method list defines neither name.) -/
def handle_set_pid (connected : Bool) (dxl_id : Int) : HandlerOutcome :=
  if ¬ connected then .backendError "Not connected to any Dynamixel bus."
  else
    match getattr_check "set_position_pid_gains" with
    | .error msg => .uncaughtException msg
    | .ok _ =>
      match getattr_check "set_velocity_pi_gains" with
      | .error msg => .uncaughtException msg
      | .ok _ => .successLog s!"ID {dxl_id}: updated PID gains"

/-- C6 (code bug): a `set_pid` invocation against a connected controller
terminates with an uncaught `AttributeError` — neither a success log nor an
error message is emitted, because `handle_set_pid` calls
`set_position_pid_gains`, which `DynamixelController` does not define, and
catches only `DynamixelError`. -/
theorem handle_set_pid_uncaught :
    handle_set_pid true 1 =
      .uncaughtException
        "AttributeError: DynamixelController object has no attribute set_position_pid_gains" ∧
    (handle_set_pid true 1).isLogged = false := by
  constructor <;> rfl

/-! ## Scan service (app.py lines 151-222) -/

/-- Outcome of `packet_handler.ping` for one id during a scan: the call
raises, or returns `(model_number, dxl_comm_result, dxl_error)`. -/
inductive ProbeBehavior
  | raises
  | reply (modelNumber : Nat) (commResult : Int) (rxError : Nat)
deriving DecidableEq, Repr

/-- The id sweep (lines 191-199): probe each id in order; append the id on
`COMM_SUCCESS` with zero status byte; on any other reply or on an exception,
continue with the next id. -/
def sweep (probe : Nat → ProbeBehavior) : List Nat → List Nat
  | [] => []
  | i :: rest =>
    match probe i with
    | .raises => sweep probe rest
    | .reply _ c e =>
      if c = COMM_SUCCESS ∧ e = 0 then i :: sweep probe rest else sweep probe rest

/-- An id answers the discovery probe successfully. -/
def responds (probe : Nat → ProbeBehavior) (i : Nat) : Bool :=
  match probe i with
  | .raises => false
  | .reply _ c e => decide (c = COMM_SUCCESS ∧ e = 0)

/-- Python `range(id_min, id_max + 1)`. -/
def scan_range (id_min id_max : Nat) : List Nat :=
  List.range' id_min (id_max + 1 - id_min)

/-- Lines 169-170: `if id_min > id_max: id_min, id_max = id_max, id_min`. -/
def normalize_range (id_min id_max : Nat) : Nat × Nat :=
  if id_min > id_max then (id_max, id_min) else (id_min, id_max)

/-- What `handle_scan_servos` emits as `scan_result`: the early failure
emissions carry `ok: False` and an empty id list; the sweep emission carries
`ok: True` with the found ids and the echoed parameters. -/
inductive ScanResult
  | failure (message : String)
  | success (message : String) (ids : List Nat) (port : String) (baudrate : Int)
      (idMin idMax : Nat)
deriving DecidableEq, Repr

/-- The `ok` field of the emitted `scan_result`. -/
def ScanResult.ok : ScanResult → Bool
  | .failure _ => false
  | .success .. => true

/-- Oracle for a scan invocation: whether `openPort()` and `setBaudRate()`
succeed, and each id's probe behaviour. -/
structure ScanEnv where
  openOk : Bool
  baudOk : Bool
  probe : Nat → ProbeBehavior

/-- Python `handle_scan_servos` (lines 151-222), after a port was supplied and the
numeric inputs parsed: normalize the range, fail if the port cannot be opened
or the baud rate cannot be set, otherwise sweep the full range and report
`ok: True` with the found ids and a found/no-servos message. -/
def handle_scan_servos (env : ScanEnv) (port : String) (baudrate : Int)
    (idMin idMax : Nat) : ScanResult :=
  let p := normalize_range idMin idMax
  if ¬ env.openOk then .failure s!"Failed to open port {port}"
  else if ¬ env.baudOk then .failure s!"Failed to set baudrate {baudrate}"
  else
    let found := sweep env.probe (scan_range p.1 p.2)
    let msg :=
      if found = [] then
        s!"No servos responded on {port} @ {baudrate} in range {p.1}-{p.2}."
      else s!"Found IDs: {found}"
    .success msg found port baudrate p.1 p.2

/-- The sweep keeps exactly the responding ids, in range order. -/
theorem sweep_filter (probe : Nat → ProbeBehavior) (l : List Nat) :
    sweep probe l = l.filter (responds probe) := by
  induction l with
  | nil => rfl
  | cons i rest ih =>
    cases hp : probe i with
    | raises => simp [sweep, hp, responds, ih]
    | reply m c e =>
      by_cases hc : c = COMM_SUCCESS ∧ e = 0 <;>
        simp [sweep, hp, responds, hc, ih]

/-- C9: over a normalized id range, every probe failure — an exception, a
transport failure, or a device fault — just leaves that id out: the sweep
covers the whole range and reports exactly the responding ids in ascending
order. -/
theorem scan_sweep_exact (probe : Nat → ProbeBehavior) (idMin idMax : Nat)
    (h : idMin ≤ idMax) :
    sweep probe (scan_range idMin idMax) =
      (scan_range idMin idMax).filter (responds probe) ∧
    List.Sorted (· < ·) (sweep probe (scan_range idMin idMax)) ∧
    ∀ i, i ∈ sweep probe (scan_range idMin idMax) ↔
      (idMin ≤ i ∧ i ≤ idMax ∧ responds probe i = true) := by
  refine ⟨sweep_filter probe _, ?_, ?_⟩
  · rw [sweep_filter]
    unfold scan_range
    exact (List.pairwise_lt_range' idMin (idMax + 1 - idMin)).filter _
  · intro i
    rw [sweep_filter, List.mem_filter, scan_range, List.mem_range'_1]
    constructor
    · rintro ⟨⟨hlo, hhi⟩, hr⟩
      exact ⟨hlo, by omega, hr⟩
    · rintro ⟨hlo, hhi, hr⟩
      exact ⟨⟨hlo, by omega⟩, hr⟩

/-- Probe behaviour where ids 3 and 7 answer, id 5 raises, and every other id
fails at the transport level. -/
def probe0 : Nat → ProbeBehavior := fun i =>
  if i = 3 ∨ i = 7 then .reply 1200 0 0
  else if i = 5 then .raises
  else .reply 0 (-3001) 0

/-- Witness for `scan_sweep_exact` on the range 1-10 with `probe0`: the
result is exactly `[3, 7]`. -/
theorem scan_sweep_exact_witness :
    sweep probe0 (scan_range 1 10) = [3, 7] ∧
    (sweep probe0 (scan_range 1 10) =
      (scan_range 1 10).filter (responds probe0) ∧
     List.Sorted (· < ·) (sweep probe0 (scan_range 1 10)) ∧
     (5 ∈ sweep probe0 (scan_range 1 10) ↔
       (1 ≤ 5 ∧ 5 ≤ 10 ∧ responds probe0 5 = true))) :=
  ⟨by decide,
   (scan_sweep_exact probe0 1 10 (by decide)).1,
   (scan_sweep_exact probe0 1 10 (by decide)).2.1,
   (scan_sweep_exact probe0 1 10 (by decide)).2.2 5⟩

/-- C10: a scan whose port opens and whose baud rate is set, but where no id
in the whole range responds, still reports `ok: True` with an empty id list
and the descriptive no-servos message. -/
theorem scan_empty_is_success (env : ScanEnv) (port : String) (baudrate : Int)
    (idMin idMax : Nat) (hopen : env.openOk = true) (hbaud : env.baudOk = true)
    (hminmax : idMin ≤ idMax) (hnone : ∀ i, responds env.probe i = false) :
    handle_scan_servos env port baudrate idMin idMax =
      .success s!"No servos responded on {port} @ {baudrate} in range {idMin}-{idMax}."
        [] port baudrate idMin idMax ∧
    (handle_scan_servos env port baudrate idMin idMax).ok = true := by
  have hnorm : normalize_range idMin idMax = (idMin, idMax) := by
    unfold normalize_range
    rw [if_neg (by omega)]
  have hs : sweep env.probe (scan_range idMin idMax) = [] := by
    rw [sweep_filter]
    exact List.filter_eq_nil_iff.mpr fun a _ => by simp [hnone a]
  constructor <;> simp [handle_scan_servos, hnorm, hopen, hbaud, hs, ScanResult.ok]

/-- A scan environment where the port opens, the baud rate is set, and every
probe fails at the transport level. -/
def c10env : ScanEnv := ⟨true, true, fun _ => .reply 0 (-3001) 0⟩

/-- Witness for `scan_empty_is_success` on `c10env`, range 1-10. -/
theorem scan_empty_is_success_witness :
    handle_scan_servos c10env "COM3" 57600 1 10 =
      .success s!"No servos responded on COM3 @ 57600 in range 1-10." [] "COM3" 57600 1 10 ∧
    (handle_scan_servos c10env "COM3" 57600 1 10).ok = true :=
  scan_empty_is_success c10env "COM3" 57600 1 10 rfl rfl (by decide)
    (fun _ => rfl)

/-- C3: for every width w in {1,2,4} and every value representable in that
width (unsigned for width 1, signed two's-complement for widths 2 and 4),
decoding the encoding of the value returns the value: the write path's mask to
`8*w` bits followed by the read path's top-bit two's-complement recovery is the
identity on the representable range, and a wire word with the top bit set
decodes to a negative value (widths 2 and 4). -/
theorem codec_round_trip (v1 v2 v4 : Int) (u2 u4 : Nat)
    (h1 : 0 ≤ v1 ∧ v1 < 2 ^ 8)
    (h2 : -(2 ^ 15) ≤ v2 ∧ v2 < 2 ^ 15)
    (h4 : -(2 ^ 31) ≤ v4 ∧ v4 < 2 ^ 31)
    (hu2 : 2 ^ 15 ≤ u2 ∧ u2 < 2 ^ 16)
    (hu4 : 2 ^ 31 ≤ u4 ∧ u4 < 2 ^ 32) :
    read1decode (write1mask v1) = v1 ∧
    read2decode (write2mask v2) = v2 ∧
    read4decode (write4mask v4) = v4 ∧
    read2decode u2 < 0 ∧ read4decode u4 < 0 := by
  obtain ⟨h1a, h1b⟩ := h1
  obtain ⟨h2a, h2b⟩ := h2
  obtain ⟨h4a, h4b⟩ := h4
  refine ⟨?_, ?_, ?_, ?_, ?_⟩
  · unfold read1decode write1mask
    rw [Int.emod_eq_of_lt h1a (by norm_num at h1b ⊢; exact h1b)]
    exact Int.toNat_of_nonneg h1a
  · rw [read2decode_eq_decodeTop]
    have hm : write2mask v2 = (v2 % (2 ^ (15 + 1) : Int)).toNat := by
      unfold write2mask; norm_num
    rw [hm]
    exact decodeTop_mask 15 v2 h2a h2b
  · rw [read4decode_eq_decodeTop]
    have hm : write4mask v4 = (v4 % (2 ^ (31 + 1) : Int)).toNat := by
      unfold write4mask; norm_num
    rw [hm]
    exact decodeTop_mask 31 v4 h4a h4b
  · rw [read2decode_eq_decodeTop]
    exact decodeTop_neg 15 u2 hu2.2 hu2.1
  · rw [read4decode_eq_decodeTop]
    exact decodeTop_neg 31 u4 hu4.2 hu4.1

/-- Witness for `codec_round_trip` at concrete representable values. -/
theorem codec_round_trip_witness :
    read1decode (write1mask 200) = 200 ∧
    read2decode (write2mask (-5)) = -5 ∧
    read4decode (write4mask (-70000)) = -70000 ∧
    read2decode 40000 < 0 ∧ read4decode 3000000000 < 0 :=
  codec_round_trip 200 (-5) (-70000) 40000 3000000000
    (by norm_num) (by norm_num) (by norm_num) (by norm_num) (by norm_num)

end RuG2DOF
